import Mathlib

/-!
Shallow embedding of the TradeBot trade-execution engine
(`mt/core/trader.py`, `mt/core/connection.py`, `mt/config/setting_schema.py`).

Prices, volumes and balances are modelled as exact rationals; timestamps as
integers.  Venue interactions (the `MetaTrader5` module calls) are modelled by
an explicit environment record whose fields are the responses the venue would
give during one `execute_signal` / `close_position` call, and each operation
additionally returns the ordered list of venue calls it performed.

Python truthiness matters in `trader.py` (`if signal.entry_price and ...`):
a float field equal to `0.0` is falsy, so a present-but-zero price level is
treated like an absent one.  This is captured by `truthy` below.
-/

namespace TradeBot

/-- Python truthiness of an optional float field: present and non-zero. -/
def truthy (o : Option ℚ) : Prop := o.getD 0 ≠ 0

instance (o : Option ℚ) : Decidable (truthy o) := by
  unfold truthy; infer_instance

/-- Python 3 `round` to an integer: round half to even (banker's rounding). -/
def pyround (x : ℚ) : ℤ :=
  let f := Int.floor x
  let frac := x - f
  if frac < 1/2 then f
  else if 1/2 < frac then f + 1
  else if f % 2 = 0 then f else f + 1

/-- `mt5.TRADE_RETCODE_DONE` -/
def TRADE_RETCODE_DONE : ℕ := 10009

/-- `mt5.ORDER_TYPE_BUY` -/
def ORDER_TYPE_BUY : ℕ := 0

/-- `mt5.ORDER_TYPE_SELL` -/
def ORDER_TYPE_SELL : ℕ := 1

/-- `LLM.core.data_types.SignalType` -/
inductive SignalType where
  | buy
  | sell
  | hold
deriving DecidableEq, Repr

/-- `LLM.core.data_types.TradingSignal` (the fields the engine reads). -/
structure TradingSignal where
  symbol : String
  signal_type : SignalType
  confidence : ℚ
  entry_price : Option ℚ := none
  stop_loss : Option ℚ := none
  take_profit : Option ℚ := none
  timestamp : ℤ := 0
  expires_at : Option ℤ := none
deriving DecidableEq, Repr

/-- The fields of `mt5.symbol_info(symbol)._asdict()` that `trader.py` reads. -/
structure SymbolInfo where
  trade_mode : ℕ
  point : ℚ
  trade_tick_value : ℚ
  volume_min : ℚ
  volume_max : ℚ
  volume_step : ℚ
  bid : ℚ
  ask : ℚ
deriving DecidableEq, Repr

/-- `MT5TradingConfig` (`setting_schema.py`), the fields the engine reads. -/
structure TradingConfig where
  default_volume : ℚ
  max_risk_percent : ℚ
  min_risk_reward : ℚ
  max_positions : ℕ
  max_slippage : ℕ
  magic_number : ℕ
deriving DecidableEq, Repr

/-- `LLMIntegrationConfig` (`setting_schema.py`), the field the engine reads. -/
structure LLMConfig where
  min_confidence_threshold : ℚ
deriving DecidableEq, Repr

/-- `MT5TradingSystemConfig` core view: `settings.core` as used in `trader.py`. -/
structure CoreConfig where
  trading : TradingConfig
  llm : LLMConfig
  dry_run : Bool
deriving DecidableEq, Repr

/-- The field of `mt5.account_info()._asdict()` that `execute_signal` reads. -/
structure AccountInfo where
  balance : ℚ
deriving DecidableEq, Repr

/-- `mt5.order_send` response fields read by `trader.py`. -/
structure OrderResult where
  retcode : ℕ
  order : ℕ
  volume : ℚ
  price : ℚ
deriving DecidableEq, Repr

/-- A venue position as returned by `mt5.positions_get`. -/
structure Position where
  ticket : ℕ
  symbol : String
  ptype : ℕ
  volume : ℚ
  price_open : ℚ := 0
deriving DecidableEq, Repr

/-- `TradeResult` enum (`trader.py`). -/
inductive TradeResult where
  | success
  | failed
  | rejected
  | invalid_signal
  | insufficient_margin
  | market_closed
  | symbol_unavailable
  | risk_exceeded
deriving DecidableEq, Repr

/-- Tags for the distinct message strings `trader.py` produces. -/
inductive ErrMsg where
  | expired
  | invalidType
  | belowConfidence
  | symbolUnavailable
  | tradingNotAllowed
  | invalidEntry
  | invalidStopLoss
  | invalidTakeProfit
  | riskRewardTooLow
  | connUnavailable
  | maxPositionsReached (limit : ℕ)
  | noAccountInfo
  | orderSendFailed
  | orderRejected (retcode : ℕ)
  | attributeErrorNoneSymbol
  | positionNotFound (ticket : ℕ)
  | closeSymbolInfoMissing
  | closeSendFailed
  | closeRejected (retcode : ℕ)
deriving DecidableEq, Repr

/-- `TradeExecution` dataclass (`trader.py`). -/
structure TradeExecution where
  result : TradeResult
  ticket : Option ℕ := none
  volume : Option ℚ := none
  price : Option ℚ := none
  error_message : Option ErrMsg := none
  execution_time : Option ℤ := none
deriving DecidableEq, Repr

/-- The kinds of venue (MetaTrader5 terminal) interactions the engine makes. -/
inductive VenueCall where
  | ensureConn
  | symbolInfoQ
  | positionsGet
  | accountInfoQ
  | orderSend
deriving DecidableEq, Repr

/-- Venue responses during one `execute_signal` call (a static snapshot:
every repeated query inside the one call sees the same answer). -/
structure ExecEnv where
  now : ℤ
  ensure : Bool
  symbolInfo : Option SymbolInfo
  positions : List Position
  account : Option AccountInfo
  orderSend : Option OrderResult
deriving DecidableEq, Repr

/-- Venue responses during one `close_position` call. -/
structure CloseEnv where
  now : ℤ
  ensure : Bool
  findPosition : Option Position
  symbolInfo : Option SymbolInfo
  orderSend : Option OrderResult
deriving DecidableEq, Repr

/-- `MT5Connection.symbol_info`: gated by `ensure_connection`, then one
`mt5.symbol_info` call. -/
def conn_symbol_info (ensure : Bool) (si : Option SymbolInfo) :
    Option SymbolInfo × List VenueCall :=
  if ensure then (si, [.ensureConn, .symbolInfoQ]) else (none, [.ensureConn])

/-- `MT5Connection.get_account_info`: gated by `ensure_connection`, then one
`mt5.account_info` call. -/
def get_account_info (ensure : Bool) (a : Option AccountInfo) :
    Option AccountInfo × List VenueCall :=
  if ensure then (a, [.ensureConn, .accountInfoQ]) else (none, [.ensureConn])

/-- `MT5Trader.get_open_positions`: gated by `ensure_connection`, then one
`mt5.positions_get` call. -/
def get_open_positions (ensure : Bool) (ps : List Position) :
    List Position × List VenueCall :=
  if ensure then (ps, [.ensureConn, .positionsGet]) else ([], [.ensureConn])

/-- The expiry test `signal.expires_at and datetime.now() > signal.expires_at`
(a `datetime` object is always truthy, so this is just presence). -/
def signal_expired (expires_at : Option ℤ) (now : ℤ) : Bool :=
  match expires_at with
  | none => false
  | some t => decide (t < now)

/-- `MT5Trader._calculate_risk_reward`. -/
def calculate_risk_reward (s : TradingSignal) : ℚ :=
  if ¬(truthy s.entry_price ∧ truthy s.stop_loss ∧ truthy s.take_profit) then 0
  else
    let risk := |s.entry_price.getD 0 - s.stop_loss.getD 0|
    if risk = 0 then 0
    else |s.take_profit.getD 0 - s.entry_price.getD 0| / risk

/-- `MT5Trader.validate_signal`.  Returns `none` for a valid signal and the
tag of the rejection message otherwise, together with the venue calls made
(the symbol lookup happens only once the first three rules pass). -/
def validate_signal (now : ℤ) (ensure : Bool) (si : Option SymbolInfo)
    (cfg : CoreConfig) (s : TradingSignal) : Option ErrMsg × List VenueCall :=
  if signal_expired s.expires_at now then (some .expired, [])
  else if s.signal_type ≠ .buy ∧ s.signal_type ≠ .sell then (some .invalidType, [])
  else if s.confidence < cfg.llm.min_confidence_threshold then (some .belowConfidence, [])
  else
    let q := conn_symbol_info ensure si
    match q.1 with
    | none => (some .symbolUnavailable, q.2)
    | some info =>
      if info.trade_mode = 0 then (some .tradingNotAllowed, q.2)
      else if truthy s.entry_price ∧ s.entry_price.getD 0 ≤ 0 then
        (some .invalidEntry, q.2)
      else if truthy s.stop_loss ∧ s.stop_loss.getD 0 ≤ 0 then
        (some .invalidStopLoss, q.2)
      else if truthy s.take_profit ∧ s.take_profit.getD 0 ≤ 0 then
        (some .invalidTakeProfit, q.2)
      else if truthy s.entry_price ∧ truthy s.stop_loss ∧ truthy s.take_profit then
        if calculate_risk_reward s < cfg.trading.min_risk_reward then
          (some .riskRewardTooLow, q.2)
        else (none, q.2)
      else (none, q.2)

/-- `MT5Trader.calculate_position_size`.  The three `ZeroDivisionError`
possibilities of the Python body (`/ point`, `/ (risk_pips * pip_value)`,
`/ volume_step`) are caught by its `except` clause, which returns the
default volume. -/
def calculate_position_size (ensure : Bool) (si : Option SymbolInfo)
    (cfg : TradingConfig) (s : TradingSignal) (account_balance : ℚ) :
    ℚ × List VenueCall :=
  let q := conn_symbol_info ensure si
  match q.1 with
  | none => (cfg.default_volume, q.2)
  | some info =>
    let risk_amount := account_balance * (cfg.max_risk_percent / 100)
    if truthy s.entry_price ∧ truthy s.stop_loss then
      if info.point = 0 then (cfg.default_volume, q.2)
      else
        let risk_pips := |s.entry_price.getD 0 - s.stop_loss.getD 0| / info.point
        let pip_value := info.trade_tick_value
        if risk_pips * pip_value = 0 then (cfg.default_volume, q.2)
        else
          let position_size := risk_amount / (risk_pips * pip_value)
          let min_volume := info.volume_min
          let max_volume := info.volume_max
          let volume_step := info.volume_step
          if volume_step = 0 then (cfg.default_volume, q.2)
          else
            let rounded := (pyround (position_size / volume_step) : ℚ) * volume_step
            let clamped := max min_volume (min rounded max_volume)
            let max_allowed := cfg.default_volume * 10
            (min clamped max_allowed, q.2)
    else (cfg.default_volume, q.2)

/-- Modelled from the spec (§4.4 wording): the raw volume from the risk
budget, rounded to the nearest multiple of the volume step, clamped to the
volume bounds, then capped by ten times the default volume (the code
hard-codes the multiplier 10). -/
def size_formula (s : TradingSignal) (balance : ℚ) (info : SymbolInfo)
    (cfg : TradingConfig) : ℚ :=
  let raw_volume := balance * cfg.max_risk_percent / 100 /
    (|s.entry_price.getD 0 - s.stop_loss.getD 0| / info.point * info.trade_tick_value)
  let rounded := (pyround (raw_volume / info.volume_step) : ℚ) * info.volume_step
  min (max info.volume_min (min rounded info.volume_max)) (cfg.default_volume * 10)

/-- `MT5Trader.execute_signal`.  Returns the `TradeExecution` and the ordered
list of venue calls performed.  The `none` symbol-info case after sizing
models the `AttributeError` the Python code would raise on
`symbol_info.get(...)` with a `None` symbol info, caught by the outer
`except` as a `Failed` result. -/
def execute_signal (env : ExecEnv) (cfg : CoreConfig) (s : TradingSignal) :
    TradeExecution × List VenueCall :=
  if env.ensure = false then
    ({ result := .failed, error_message := some .connUnavailable,
       execution_time := some env.now }, [.ensureConn])
  else
    let v := validate_signal env.now env.ensure env.symbolInfo cfg s
    match v.1 with
    | some e =>
      ({ result := .invalid_signal, error_message := some e,
         execution_time := some env.now }, .ensureConn :: v.2)
    | none =>
      let gp := get_open_positions env.ensure env.positions
      let tr1 := .ensureConn :: v.2 ++ gp.2
      if cfg.trading.max_positions ≤ gp.1.length then
        ({ result := .rejected,
           error_message := some (.maxPositionsReached cfg.trading.max_positions),
           execution_time := some env.now }, tr1)
      else
        let ai := get_account_info env.ensure env.account
        let tr2 := tr1 ++ ai.2
        match ai.1 with
        | none =>
          ({ result := .failed, error_message := some .noAccountInfo,
             execution_time := some env.now }, tr2)
        | some acct =>
          let ps := calculate_position_size env.ensure env.symbolInfo cfg.trading s acct.balance
          let volume := ps.1
          let q := conn_symbol_info env.ensure env.symbolInfo
          let tr3 := tr2 ++ ps.2 ++ q.2
          match q.1 with
          | none =>
            ({ result := .failed, error_message := some .attributeErrorNoneSymbol,
               execution_time := some env.now }, tr3)
          | some info =>
            let current_price := if s.signal_type = .sell then info.bid else info.ask
            if cfg.dry_run then
              ({ result := .success, ticket := some 999999, volume := some volume,
                 price := some current_price, execution_time := some env.now }, tr3)
            else
              match env.orderSend with
              | none =>
                ({ result := .failed, error_message := some .orderSendFailed,
                   execution_time := some env.now }, tr3 ++ [.orderSend])
              | some r =>
                if r.retcode = TRADE_RETCODE_DONE then
                  ({ result := .success, ticket := some r.order,
                     volume := some r.volume, price := some r.price,
                     execution_time := some env.now }, tr3 ++ [.orderSend])
                else
                  ({ result := .rejected,
                     error_message := some (.orderRejected r.retcode),
                     execution_time := some env.now }, tr3 ++ [.orderSend])

/-- `MT5Trader.close_position`. -/
def close_position (env : CloseEnv) (cfg : CoreConfig) (ticket : ℕ) :
    TradeExecution × List VenueCall :=
  if env.ensure = false then
    ({ result := .failed, error_message := some .connUnavailable,
       execution_time := some env.now }, [.ensureConn])
  else
    match env.findPosition with
    | none =>
      ({ result := .failed, error_message := some (.positionNotFound ticket),
         execution_time := some env.now }, [.ensureConn, .positionsGet])
    | some pos =>
      let close_type := if pos.ptype = ORDER_TYPE_BUY then ORDER_TYPE_SELL else ORDER_TYPE_BUY
      let q := conn_symbol_info env.ensure env.symbolInfo
      let tr := .ensureConn :: .positionsGet :: q.2
      match q.1 with
      | none =>
        ({ result := .failed, error_message := some .closeSymbolInfoMissing,
           execution_time := some env.now }, tr)
      | some info =>
        let price := if close_type = ORDER_TYPE_SELL then info.bid else info.ask
        if cfg.dry_run then
          ({ result := .success, ticket := some ticket, volume := some pos.volume,
             price := some price, execution_time := some env.now }, tr)
        else
          match env.orderSend with
          | none =>
            ({ result := .failed, error_message := some .closeSendFailed,
               execution_time := some env.now }, tr ++ [.orderSend])
          | some r =>
            if r.retcode = TRADE_RETCODE_DONE then
              ({ result := .success, ticket := some r.order, volume := some r.volume,
                 price := some r.price, execution_time := some env.now },
               tr ++ [.orderSend])
            else
              ({ result := .rejected, error_message := some (.closeRejected r.retcode),
                 execution_time := some env.now }, tr ++ [.orderSend])

/-! ### Connection manager (`mt/core/connection.py`) -/

/-- `ConnectionStatus` dataclass (the fields the claims concern).  A fresh
status (as built by a successful `connect` or by `disconnect`) has
`last_error = none`. -/
structure ConnectionStatus where
  connected : Bool
  last_error : Option ℕ := none
deriving DecidableEq, Repr

/-- `MT5Connection` mutable state: its `_status`, its `_connection_attempts`
counter, and `_max_connection_attempts` (set at construction from the
configured `connection.retries`). -/
structure ConnM where
  status : ConnectionStatus
  connection_attempts : ℕ
  max_connection_attempts : ℕ
deriving DecidableEq, Repr

/-- The venue's response to one `connect` attempt: `mt5.initialize` may fail,
or succeed with `mt5.account_info()` returning `None`; otherwise the attempt
succeeds.  Error codes stand for the `mt5.last_error()` values. -/
inductive AttemptOutcome where
  | success
  | failInit (code : ℕ)
  | failAccount (code : ℕ)
deriving DecidableEq, Repr

/-- `MT5Connection.connect`: performs exactly one session-initialization
attempt.  On success it installs a fresh connected status and resets the
attempt counter; on failure it records the error in the existing status and
returns `False`. -/
def connect (o : AttemptOutcome) (st : ConnM) : Bool × ConnM :=
  match o with
  | .success =>
    (true, { st with status := { connected := true, last_error := none },
                     connection_attempts := 0 })
  | .failInit c =>
    (false, { st with status := { st.status with last_error := some c } })
  | .failAccount c =>
    (false, { st with status := { st.status with last_error := some c } })

/-- `MT5Connection.disconnect`: installs a fresh disconnected status; the
attempt counter is a separate attribute and is untouched. -/
def disconnect (st : ConnM) : ConnM :=
  { st with status := { connected := false, last_error := none } }

/-- `MT5Connection.reconnect`.  The third component records whether a new
connection attempt was actually made. -/
def reconnect (o : AttemptOutcome) (st : ConnM) : Bool × ConnM × Bool :=
  if st.max_connection_attempts ≤ st.connection_attempts then (false, st, false)
  else
    let st1 := { st with connection_attempts := st.connection_attempts + 1 }
    let st2 := disconnect st1
    let r := connect o st2
    (r.1, r.2, true)

/-- `MT5Connection.check_connection`: liveness probe against the terminal and
the account; a dead probe flips `connected` off. -/
def check_connection (terminalOk accountOk : Bool) (st : ConnM) : Bool × ConnM :=
  if st.status.connected = false then (false, st)
  else if terminalOk = false then
    (false, { st with status := { st.status with connected := false } })
  else if accountOk = false then
    (false, { st with status := { st.status with connected := false } })
  else (true, st)

/-- `MT5Connection.ensure_connection`: `check_connection`, and on failure one
`reconnect`.  Third component: whether a new connection attempt was made. -/
def ensure_connection (terminalOk accountOk : Bool) (o : AttemptOutcome)
    (st : ConnM) : Bool × ConnM × Bool :=
  let c := check_connection terminalOk accountOk st
  if c.1 then (true, c.2, false) else reconnect o c.2

/-- Modelled from the spec: `connect(credentials, timeout, retries,
retry_delay)` "attempts session init; on failure retries up to `retries`
times with fixed `retry_delay` between attempts" (§4.1).  `f i` is the
venue's response to the `i`-th attempt; the fuel is the number of retries
still allowed after the current attempt. -/
def connect_spec_aux (f : ℕ → AttemptOutcome) : ℕ → ℕ → ConnM → Bool × ConnM
  | i, 0, st => connect (f i) st
  | i, fuel + 1, st =>
    let r := connect (f i) st
    if r.1 then r else connect_spec_aux f (i + 1) fuel r.2

/-- Modelled from the spec: the retrying `connect` of §4.1, making up to
`retries` retries after the initial attempt. -/
def connect_spec (retries : ℕ) (f : ℕ → AttemptOutcome) (st : ConnM) :
    Bool × ConnM :=
  connect_spec_aux f 0 retries st

/-- One public operation on the connection manager, for stating which
operations can change the attempt counter. -/
inductive ConnOp where
  | connectOp (o : AttemptOutcome)
  | disconnectOp
  | reconnectOp (o : AttemptOutcome)
  | checkOp (terminalOk accountOk : Bool)
  | ensureOp (terminalOk accountOk : Bool) (o : AttemptOutcome)
deriving DecidableEq, Repr

/-- The state after running one connection-manager operation. -/
def applyOp : ConnOp → ConnM → ConnM
  | .connectOp o, st => (connect o st).2
  | .disconnectOp, st => disconnect st
  | .reconnectOp o, st => (reconnect o st).2.1
  | .checkOp t a, st => (check_connection t a st).2
  | .ensureOp t a o, st => (ensure_connection t a o st).2.1

/-- Whether running the operation performed a `connect` attempt that
succeeded. -/
def opConnectSuccess : ConnOp → ConnM → Bool
  | .connectOp o, _ => decide (o = .success)
  | .disconnectOp, _ => false
  | .reconnectOp o, st =>
    decide (st.connection_attempts < st.max_connection_attempts ∧ o = .success)
  | .checkOp _ _, _ => false
  | .ensureOp t a o, st =>
    decide ((check_connection t a st).1 = false ∧
      st.connection_attempts < st.max_connection_attempts ∧ o = .success)

/-! ### Concrete fixtures for witnesses and counterexamples -/

/-- A typical EURUSD symbol snapshot. -/
def infoStd : SymbolInfo :=
  { trade_mode := 4, point := 1/10000, trade_tick_value := 1,
    volume_min := 1/100, volume_max := 100, volume_step := 1/100,
    bid := 10949/10000, ask := 1095/1000 }

/-- The default trading configuration of `setting_schema.py`. -/
def cfgTr : TradingConfig :=
  { default_volume := 1/100, max_risk_percent := 2, min_risk_reward := 3/2,
    max_positions := 3, max_slippage := 20, magic_number := 234001 }

/-- Core configuration with the dry-run flag set. -/
def cfgDry : CoreConfig :=
  { trading := cfgTr, llm := { min_confidence_threshold := 7/10 }, dry_run := true }

/-- Core configuration with the dry-run flag clear. -/
def cfgLive : CoreConfig := { cfgDry with dry_run := false }

/-- A valid buy signal: risk-reward (1.13 - 1.10)/(1.10 - 1.09) = 3. -/
def sigStd : TradingSignal :=
  { symbol := "EURUSD", signal_type := .buy, confidence := 85/100,
    entry_price := some (11/10), stop_loss := some (109/100),
    take_profit := some (113/100) }

/-- A healthy venue environment for `execute_signal`. -/
def envStd : ExecEnv :=
  { now := 0, ensure := true, symbolInfo := some infoStd, positions := [],
    account := some ⟨10000⟩, orderSend := some ⟨10009, 123, 1/10, 1095/1000⟩ }

/-- A venue environment whose connection is unavailable. -/
def envDown : ExecEnv := { envStd with ensure := false }

/-- A venue environment already holding three open positions. -/
def envFull : ExecEnv :=
  { envStd with positions := [⟨11, "EURUSD", 0, 1/100, 1⟩, ⟨12, "EURUSD", 0, 1/100, 1⟩,
                              ⟨13, "EURUSD", 1, 1/100, 1⟩] }

/-- An expired signal whose confidence is below the threshold. -/
def sigExpLow : TradingSignal := { sigStd with confidence := 0, expires_at := some 0 }

/-- A signal whose take-profit is provided but equal to zero. -/
def sigTpZero : TradingSignal := { sigStd with take_profit := some 0 }

/-- A signal carrying no price levels. -/
def sigNoLevels : TradingSignal :=
  { sigStd with entry_price := none, stop_loss := none, take_profit := none }

/-- A symbol snapshot whose volume bounds exclude the default volume. -/
def infoTight : SymbolInfo := { infoStd with volume_min := 1, volume_max := 2 }

/-- A trading configuration whose default volume is zero (reachable, e.g.
via the `MT5_DEFAULT_VOLUME` environment override). -/
def cfgZero : TradingConfig := { cfgTr with default_volume := 0 }

/-- A healthy close-position environment. -/
def cenvStd : CloseEnv :=
  { now := 0, ensure := true, findPosition := some ⟨77, "EURUSD", 0, 1/10, 1⟩,
    symbolInfo := some infoStd, orderSend := some ⟨10009, 500, 1/10, 10949/10000⟩ }

/-- A close-position environment with the connection down. -/
def cenvDown : CloseEnv := { cenvStd with ensure := false }

/-- A fresh connection-manager state with the default three retries. -/
def st0 : ConnM :=
  { status := { connected := false }, connection_attempts := 0,
    max_connection_attempts := 3 }

/-- A connection-manager state whose attempt counter has reached the cap. -/
def stCap : ConnM := { st0 with connection_attempts := 3 }

/-! ### Shared lemmas -/

set_option maxHeartbeats 1000000 in
/-- The signal-validation step never submits an order. -/
theorem orderSend_not_mem_validate (now : ℤ) (e : Bool) (si : Option SymbolInfo)
    (cfg : CoreConfig) (s : TradingSignal) :
    VenueCall.orderSend ∉ (validate_signal now e si cfg s).2 := by
  simp only [validate_signal, conn_symbol_info]
  repeat' split
  all_goals simp

/-- A signal can only pass validation when the symbol snapshot is present. -/
theorem validate_ok_symbol (now : ℤ) (si : Option SymbolInfo)
    (cfg : CoreConfig) (s : TradingSignal)
    (h : (validate_signal now true si cfg s).1 = none) : si.isSome := by
  cases si with
  | some info => rfl
  | none =>
    exfalso
    simp only [validate_signal, conn_symbol_info] at h
    repeat' split at h <;> simp_all

/-! ### Claims -/

/-- Claim C2 (confirmed): if `ensure_connection` reports the connection
unavailable, `execute_signal` returns a `Failed` result carrying the
connection-unavailable message and never invokes `mt5.order_send`. -/
theorem claim_C2 (env : ExecEnv) (cfg : CoreConfig) (s : TradingSignal)
    (h : env.ensure = false) :
    (execute_signal env cfg s).1.result = TradeResult.failed ∧
    (execute_signal env cfg s).1.error_message = some ErrMsg.connUnavailable ∧
    VenueCall.orderSend ∉ (execute_signal env cfg s).2 := by
  simp [execute_signal, h]

/-- Claim C2 witness: a concrete unavailable-connection environment. -/
theorem claim_C2_witness :
    (execute_signal envDown cfgLive sigStd).1.result = TradeResult.failed ∧
    (execute_signal envDown cfgLive sigStd).1.error_message = some ErrMsg.connUnavailable ∧
    VenueCall.orderSend ∉ (execute_signal envDown cfgLive sigStd).2 :=
  claim_C2 envDown cfgLive sigStd rfl

/-- Claim C9 (confirmed): a valid signal arriving when the number of open
positions has reached the configured `max_positions` limit is `Rejected`
with a message naming the limit, and `mt5.order_send` is not invoked. -/
theorem claim_C9 (env : ExecEnv) (cfg : CoreConfig) (s : TradingSignal)
    (h1 : env.ensure = true)
    (h2 : (validate_signal env.now env.ensure env.symbolInfo cfg s).1 = none)
    (h3 : cfg.trading.max_positions ≤ env.positions.length) :
    (execute_signal env cfg s).1.result = TradeResult.rejected ∧
    (execute_signal env cfg s).1.error_message =
      some (ErrMsg.maxPositionsReached cfg.trading.max_positions) ∧
    VenueCall.orderSend ∉ (execute_signal env cfg s).2 := by
  have hv : VenueCall.orderSend ∉ (validate_signal env.now true env.symbolInfo cfg s).2 := by
    have h0 := orderSend_not_mem_validate env.now env.ensure env.symbolInfo cfg s
    rwa [h1] at h0
  have h2' : (validate_signal env.now true env.symbolInfo cfg s).1 = none := by
    rwa [h1] at h2
  refine ⟨?_, ?_, ?_⟩ <;>
    simp [execute_signal, h1, h2', get_open_positions, h3, hv]

/-- Claim C9 witness: three open positions against the default limit of 3. -/
theorem claim_C9_witness :
    (execute_signal envFull cfgLive sigStd).1.result = TradeResult.rejected ∧
    (execute_signal envFull cfgLive sigStd).1.error_message =
      some (ErrMsg.maxPositionsReached cfgLive.trading.max_positions) ∧
    VenueCall.orderSend ∉ (execute_signal envFull cfgLive sigStd).2 :=
  claim_C9 envFull cfgLive sigStd rfl
    (by norm_num [validate_signal, conn_symbol_info, signal_expired, truthy,
      calculate_risk_reward, abs_of_pos, envFull, envStd, sigStd, infoStd,
      cfgLive, cfgDry, cfgTr])
    (by norm_num [envFull, envStd, cfgLive, cfgDry, cfgTr])

/-- Claim C7 counterexample: a signal that is both expired and below the
confidence threshold is rejected as expired, not with the
below-confidence-threshold reason, so the rejection is not independent of
the other fields. -/
theorem claim_C7_counterexample :
    sigExpLow.confidence < cfgDry.llm.min_confidence_threshold ∧
    (validate_signal 1 true (some infoStd) cfgDry sigExpLow).1 = some ErrMsg.expired ∧
    (validate_signal 1 true (some infoStd) cfgDry sigExpLow).1 ≠ some ErrMsg.belowConfidence := by
  have h2 : (validate_signal 1 true (some infoStd) cfgDry sigExpLow).1 = some ErrMsg.expired := by
    norm_num [validate_signal, signal_expired, sigExpLow, sigStd]
  exact ⟨by norm_num [sigExpLow, sigStd, cfgDry, cfgTr], h2, by rw [h2]; decide⟩

/-- Claim C7 amended: for every signal that is not expired and whose
direction is Buy or Sell, confidence below the threshold is rejected with
the below-confidence reason, regardless of price levels, symbol snapshot
and connection state. -/
theorem claim_C7_amended (now : ℤ) (e : Bool) (si : Option SymbolInfo)
    (cfg : CoreConfig) (s : TradingSignal)
    (h1 : signal_expired s.expires_at now = false)
    (h2 : s.signal_type = SignalType.buy ∨ s.signal_type = SignalType.sell)
    (h3 : s.confidence < cfg.llm.min_confidence_threshold) :
    (validate_signal now e si cfg s).1 = some ErrMsg.belowConfidence := by
  unfold validate_signal
  rcases h2 with h2 | h2 <;> simp [h1, h2, h3]

/-- Claim C7 amended witness: a non-expired buy signal with zero
confidence. -/
theorem claim_C7_amended_witness :
    (validate_signal 1 true none cfgDry { sigStd with confidence := 0 }).1 =
      some ErrMsg.belowConfidence :=
  claim_C7_amended 1 true none cfgDry { sigStd with confidence := 0 }
    rfl (Or.inl rfl) (by norm_num [cfgDry, cfgTr])

/-- Claim C8 counterexample: a signal whose provided take-profit equals `0`
reaches rule 5 yet passes validation, because Python truthiness treats a
zero price level as absent. -/
theorem claim_C8_counterexample :
    sigTpZero.take_profit = some 0 ∧
    (validate_signal 0 true (some infoStd) cfgDry sigTpZero).1 = none := by
  refine ⟨rfl, ?_⟩
  norm_num [validate_signal, conn_symbol_info, signal_expired, truthy,
    calculate_risk_reward, sigTpZero, sigStd, infoStd, cfgDry, cfgTr]

/-- Claim C8 amended: for every signal reaching rule 5, a provided price
level that is strictly negative is rejected with one of the three
invalid-price-level messages; a provided level equal to zero is treated as
absent. -/
theorem claim_C8_amended (now : ℤ) (info : SymbolInfo) (cfg : CoreConfig)
    (s : TradingSignal)
    (h1 : signal_expired s.expires_at now = false)
    (h2 : s.signal_type = SignalType.buy ∨ s.signal_type = SignalType.sell)
    (h3 : cfg.llm.min_confidence_threshold ≤ s.confidence)
    (h4 : info.trade_mode ≠ 0)
    (h5 : s.entry_price.getD 0 < 0 ∨ s.stop_loss.getD 0 < 0 ∨
          s.take_profit.getD 0 < 0) :
    (validate_signal now true (some info) cfg s).1 = some ErrMsg.invalidEntry ∨
    (validate_signal now true (some info) cfg s).1 = some ErrMsg.invalidStopLoss ∨
    (validate_signal now true (some info) cfg s).1 = some ErrMsg.invalidTakeProfit := by
  have h3' : ¬ s.confidence < cfg.llm.min_confidence_threshold := not_lt.mpr h3
  unfold validate_signal conn_symbol_info
  by_cases he : truthy s.entry_price ∧ s.entry_price.getD 0 ≤ 0
  · rcases h2 with h2 | h2 <;> simp [h1, h2, h3', h4, he]
  · by_cases hs : truthy s.stop_loss ∧ s.stop_loss.getD 0 ≤ 0
    · rcases h2 with h2 | h2 <;> simp [h1, h2, h3', h4, he, hs]
    · by_cases ht : truthy s.take_profit ∧ s.take_profit.getD 0 ≤ 0
      · rcases h2 with h2 | h2 <;> simp [h1, h2, h3', h4, he, hs, ht]
      · exfalso
        rcases h5 with h5 | h5 | h5
        · exact he ⟨ne_of_lt h5, le_of_lt h5⟩
        · exact hs ⟨ne_of_lt h5, le_of_lt h5⟩
        · exact ht ⟨ne_of_lt h5, le_of_lt h5⟩

/-- Claim C8 amended witness: a provided negative stop-loss is rejected with
an invalid-price-level message. -/
theorem claim_C8_amended_witness :
    (validate_signal 0 true (some infoStd) cfgDry
        { sigStd with stop_loss := some (-1) }).1 = some ErrMsg.invalidEntry ∨
    (validate_signal 0 true (some infoStd) cfgDry
        { sigStd with stop_loss := some (-1) }).1 = some ErrMsg.invalidStopLoss ∨
    (validate_signal 0 true (some infoStd) cfgDry
        { sigStd with stop_loss := some (-1) }).1 = some ErrMsg.invalidTakeProfit :=
  claim_C8_amended 0 infoStd cfgDry { sigStd with stop_loss := some (-1) }
    rfl (Or.inl rfl) (by norm_num [cfgDry, cfgTr, sigStd])
    (by norm_num [infoStd]) (Or.inr (Or.inl (by norm_num)))

/-- The position sizer's venue calls are exactly one gated symbol lookup. -/
theorem calculate_position_size_trace (e : Bool) (si : Option SymbolInfo)
    (cfg : TradingConfig) (s : TradingSignal) (b : ℚ) :
    (calculate_position_size e si cfg s b).2 = (conn_symbol_info e si).2 := by
  simp only [calculate_position_size]
  repeat' split
  all_goals rfl

/-- The liveness probe never changes the attempt counter or its cap. -/
theorem check_connection_counters (t a : Bool) (st : ConnM) :
    (check_connection t a st).2.connection_attempts = st.connection_attempts ∧
    (check_connection t a st).2.max_connection_attempts = st.max_connection_attempts := by
  unfold check_connection
  repeat' split
  all_goals exact ⟨rfl, rfl⟩

/-- Claim C1 counterexample: with the dry-run flag set, a fully passing
execution still performs venue read I/O (account snapshot, open-position
query) before the flag is consulted, so the flag is not checked before any
venue I/O. -/
theorem claim_C1_counterexample :
    cfgDry.dry_run = true ∧
    (execute_signal envStd cfgDry sigStd).1.result = TradeResult.success ∧
    VenueCall.accountInfoQ ∈ (execute_signal envStd cfgDry sigStd).2 ∧
    VenueCall.positionsGet ∈ (execute_signal envStd cfgDry sigStd).2 := by
  refine ⟨rfl, ?_, ?_, ?_⟩ <;>
    norm_num [execute_signal, validate_signal, conn_symbol_info, get_open_positions,
      get_account_info, calculate_position_size, calculate_risk_reward, signal_expired,
      truthy, pyround, abs_of_pos, max_def, min_def,
      envStd, sigStd, infoStd, cfgDry, cfgTr]

set_option maxHeartbeats 1000000 in
/-- Claim C1 amended: with the dry-run flag set, every signal that passes
the connection, validation, position-limit and account-snapshot steps
produces a `Success` result carrying the sentinel ticket 999999 and
`mt5.order_send` is never invoked; the flag is checked before the order
submission call (venue read I/O still happens earlier). -/
theorem claim_C1_amended (env : ExecEnv) (cfg : CoreConfig) (s : TradingSignal)
    (hd : cfg.dry_run = true)
    (h1 : env.ensure = true)
    (h2 : (validate_signal env.now true env.symbolInfo cfg s).1 = none)
    (h3 : env.positions.length < cfg.trading.max_positions)
    (h4 : env.account.isSome) :
    (execute_signal env cfg s).1.result = TradeResult.success ∧
    (execute_signal env cfg s).1.ticket = some 999999 ∧
    VenueCall.orderSend ∉ (execute_signal env cfg s).2 := by
  obtain ⟨a, ha⟩ := Option.isSome_iff_exists.mp h4
  have hsi := validate_ok_symbol env.now env.symbolInfo cfg s h2
  obtain ⟨info, hinfo⟩ := Option.isSome_iff_exists.mp hsi
  have hv := orderSend_not_mem_validate env.now true env.symbolInfo cfg s
  have h3' : ¬ cfg.trading.max_positions ≤ env.positions.length := not_le.mpr h3
  have htr := calculate_position_size_trace true env.symbolInfo cfg.trading s a.balance
  rw [hinfo] at h2 hv htr
  refine ⟨?_, ?_, ?_⟩ <;>
    simp [execute_signal, h1, h2, get_open_positions, get_account_info,
      conn_symbol_info, h3', ha, hinfo, hd, htr, hv]

/-- Claim C1 amended witness: the healthy dry-run environment. -/
theorem claim_C1_amended_witness :
    (execute_signal envStd cfgDry sigStd).1.result = TradeResult.success ∧
    (execute_signal envStd cfgDry sigStd).1.ticket = some 999999 ∧
    VenueCall.orderSend ∉ (execute_signal envStd cfgDry sigStd).2 :=
  claim_C1_amended envStd cfgDry sigStd rfl rfl
    (by norm_num [validate_signal, conn_symbol_info, signal_expired, truthy,
      calculate_risk_reward, abs_of_pos, envStd, sigStd, infoStd, cfgDry, cfgTr])
    (by decide) rfl

set_option maxHeartbeats 2000000 in
/-- Claim C3 (confirmed): for `execute_signal` and `close_position`, a
`Success` result always carries a ticket and a fill price, and every
non-`Success` result carries neither. -/
theorem claim_C3 (env : ExecEnv) (cenv : CloseEnv) (cfg : CoreConfig)
    (s : TradingSignal) (t : ℕ) :
    ((execute_signal env cfg s).1.result = TradeResult.success →
      (execute_signal env cfg s).1.ticket ≠ none ∧
      (execute_signal env cfg s).1.price ≠ none) ∧
    ((execute_signal env cfg s).1.result ≠ TradeResult.success →
      (execute_signal env cfg s).1.ticket = none ∧
      (execute_signal env cfg s).1.price = none) ∧
    ((close_position cenv cfg t).1.result = TradeResult.success →
      (close_position cenv cfg t).1.ticket ≠ none ∧
      (close_position cenv cfg t).1.price ≠ none) ∧
    ((close_position cenv cfg t).1.result ≠ TradeResult.success →
      (close_position cenv cfg t).1.ticket = none ∧
      (close_position cenv cfg t).1.price = none) := by
  refine ⟨?_, ?_, ?_, ?_⟩ <;>
  · simp only [execute_signal, close_position, get_open_positions, get_account_info,
      conn_symbol_info]
    repeat' split
    all_goals simp

/-- Claim C3 witness: a successful live execution carries a ticket; a
failed close (connection down) carries none. -/
theorem claim_C3_witness :
    (execute_signal envStd cfgLive sigStd).1.result = TradeResult.success ∧
    (execute_signal envStd cfgLive sigStd).1.ticket ≠ none ∧
    (close_position cenvDown cfgLive 5).1.result ≠ TradeResult.success ∧
    (close_position cenvDown cfgLive 5).1.ticket = none := by
  have hs : (execute_signal envStd cfgLive sigStd).1.result = TradeResult.success := by
    norm_num [execute_signal, validate_signal, conn_symbol_info, get_open_positions,
      get_account_info, calculate_position_size, calculate_risk_reward, signal_expired,
      truthy, pyround, abs_of_pos, max_def, min_def, TRADE_RETCODE_DONE,
      envStd, sigStd, infoStd, cfgLive, cfgDry, cfgTr]
  have hr : (close_position cenvDown cfgLive 5).1.result = TradeResult.failed := by
    norm_num [close_position, cenvDown, cenvStd]
  have hf : (close_position cenvDown cfgLive 5).1.result ≠ TradeResult.success := by
    rw [hr]; decide
  exact ⟨hs, ((claim_C3 envStd cenvDown cfgLive sigStd 5).1 hs).1,
         hf, ((claim_C3 envStd cenvDown cfgLive sigStd 5).2.2.2 hf).1⟩

/-- Claim C5 counterexample: with no price levels the sizer returns the
default volume unmodified, which lies below the venue's minimum volume, so
the result is not always within the spec's volume bounds. -/
theorem claim_C5_counterexample :
    sigNoLevels.entry_price = none ∧
    (calculate_position_size true (some infoTight) cfgTr sigNoLevels 10000).1 =
      cfgTr.default_volume ∧
    (calculate_position_size true (some infoTight) cfgTr sigNoLevels 10000).1 <
      infoTight.volume_min := by
  have h : (calculate_position_size true (some infoTight) cfgTr sigNoLevels 10000).1 = 1/100 := by
    norm_num [calculate_position_size, conn_symbol_info, truthy, sigNoLevels, sigStd, cfgTr]
  refine ⟨rfl, ?_, ?_⟩
  · rw [h]; norm_num [cfgTr]
  · rw [h]; norm_num [infoTight, infoStd]

/-- Claim C5 amended: when both price levels are provided and non-zero, no
computation error occurs, the volume bounds are consistent, and the hard
ceiling of ten default volumes is at least the minimum volume, the sizer's
result lies within the venue volume bounds. -/
theorem claim_C5_amended (s : TradingSignal) (b : ℚ) (info : SymbolInfo)
    (cfg : TradingConfig)
    (h1 : truthy s.entry_price) (h2 : truthy s.stop_loss)
    (h3 : info.point ≠ 0)
    (h4 : |s.entry_price.getD 0 - s.stop_loss.getD 0| / info.point * info.trade_tick_value ≠ 0)
    (h5 : info.volume_step ≠ 0)
    (h6 : info.volume_min ≤ info.volume_max)
    (h7 : info.volume_min ≤ cfg.default_volume * 10) :
    info.volume_min ≤ (calculate_position_size true (some info) cfg s b).1 ∧
    (calculate_position_size true (some info) cfg s b).1 ≤ info.volume_max := by
  simp only [calculate_position_size, conn_symbol_info, if_true]
  rw [if_pos ⟨h1, h2⟩, if_neg h3, if_neg h4, if_neg h5]
  constructor
  · exact le_min (le_max_left _ _) h7
  · exact le_trans (min_le_left _ _) (max_le h6 (min_le_right _ _))

/-- Claim C5 amended witness: the standard signal and symbol snapshot. -/
theorem claim_C5_amended_witness :
    infoStd.volume_min ≤ (calculate_position_size true (some infoStd) cfgTr sigStd 10000).1 ∧
    (calculate_position_size true (some infoStd) cfgTr sigStd 10000).1 ≤ infoStd.volume_max :=
  claim_C5_amended sigStd 10000 infoStd cfgTr
    (by norm_num [truthy, sigStd]) (by norm_num [truthy, sigStd])
    (by norm_num [infoStd]) (by norm_num [sigStd, infoStd, abs_of_pos])
    (by norm_num [infoStd]) (by norm_num [infoStd]) (by norm_num [infoStd, cfgTr])

/-- Claim C6 counterexample: with a zero default volume and absent price
levels the sizer returns 0, so it does not hold that the sizer never
returns 0 or a negative value. -/
theorem claim_C6_counterexample :
    cfgZero.default_volume = 0 ∧
    (calculate_position_size true (some infoStd) cfgZero sigNoLevels 100).1 = 0 := by
  refine ⟨rfl, ?_⟩
  norm_num [calculate_position_size, conn_symbol_info, truthy, sigNoLevels, sigStd,
    cfgZero, cfgTr]

/-- Claim C6 amended: with both price levels provided and non-zero and no
computation error, the sizer computes exactly the claim's formula with the
hard-coded multiplier 10; with absent or zero price levels, or on a
computation error, it returns the default volume; the result is positive
whenever both the default volume and the venue minimum volume are
positive. -/
theorem claim_C6_amended (s : TradingSignal) (b : ℚ) (info : SymbolInfo)
    (cfg : TradingConfig) :
    ((truthy s.entry_price ∧ truthy s.stop_loss) → info.point ≠ 0 →
      |s.entry_price.getD 0 - s.stop_loss.getD 0| / info.point * info.trade_tick_value ≠ 0 →
      info.volume_step ≠ 0 →
      (calculate_position_size true (some info) cfg s b).1 = size_formula s b info cfg) ∧
    (¬(truthy s.entry_price ∧ truthy s.stop_loss) →
      (calculate_position_size true (some info) cfg s b).1 = cfg.default_volume) ∧
    (info.point = 0 →
      (calculate_position_size true (some info) cfg s b).1 = cfg.default_volume) ∧
    (0 < cfg.default_volume → 0 < info.volume_min →
      0 < (calculate_position_size true (some info) cfg s b).1) := by
  refine ⟨?_, ?_, ?_, ?_⟩
  · intro hts h3 h4 h5
    simp only [calculate_position_size, conn_symbol_info, if_true]
    rw [if_pos hts, if_neg h3, if_neg h4, if_neg h5]
    simp only [size_formula]
    have hq : b * (cfg.max_risk_percent / 100) = b * cfg.max_risk_percent / 100 := by ring
    rw [hq]
  · intro hts
    simp only [calculate_position_size, conn_symbol_info, if_true]
    rw [if_neg hts]
  · intro h3
    simp only [calculate_position_size, conn_symbol_info, if_true]
    by_cases hts : truthy s.entry_price ∧ truthy s.stop_loss
    · rw [if_pos hts, if_pos h3]
    · rw [if_neg hts]
  · intro hdv hmin
    simp only [calculate_position_size, conn_symbol_info, if_true]
    by_cases hts : truthy s.entry_price ∧ truthy s.stop_loss
    · rw [if_pos hts]
      by_cases h3 : info.point = 0
      · rw [if_pos h3]; exact hdv
      · rw [if_neg h3]
        by_cases h4 : |s.entry_price.getD 0 - s.stop_loss.getD 0| / info.point *
            info.trade_tick_value = 0
        · rw [if_pos h4]; exact hdv
        · rw [if_neg h4]
          by_cases h5 : info.volume_step = 0
          · rw [if_pos h5]; exact hdv
          · rw [if_neg h5]
            exact lt_min (lt_of_lt_of_le hmin (le_max_left _ _)) (by positivity)
    · rw [if_neg hts]; exact hdv

/-- Claim C6 amended witness: formula agreement for the standard signal,
default fallback for the level-free signal, and positivity. -/
theorem claim_C6_amended_witness :
    (calculate_position_size true (some infoStd) cfgTr sigStd 10000).1 =
      size_formula sigStd 10000 infoStd cfgTr ∧
    (calculate_position_size true (some infoStd) cfgTr sigNoLevels 10000).1 =
      cfgTr.default_volume ∧
    0 < (calculate_position_size true (some infoStd) cfgTr sigStd 10000).1 :=
  ⟨(claim_C6_amended sigStd 10000 infoStd cfgTr).1
      (by norm_num [truthy, sigStd]) (by norm_num [infoStd])
      (by norm_num [sigStd, infoStd, abs_of_pos]) (by norm_num [infoStd]),
   (claim_C6_amended sigNoLevels 10000 infoStd cfgTr).2.1
      (by norm_num [truthy, sigNoLevels, sigStd]),
   (claim_C6_amended sigStd 10000 infoStd cfgTr).2.2.2
      (by norm_num [cfgTr]) (by norm_num [infoStd])⟩

/-- Claim C4 counterexample: starting disconnected with three retries
configured, an environment whose first initialization attempt fails and
whose second would succeed: the code's `connect` makes a single attempt and
returns false, while the spec's retrying `connect` returns true. -/
theorem claim_C4_counterexample :
    (connect (AttemptOutcome.failInit 7) st0).1 = false ∧
    (connect_spec 3
      (fun i => if i = 0 then AttemptOutcome.failInit 7 else AttemptOutcome.success)
      st0).1 = true := by
  constructor <;> rfl

/-- Claim C4 amended: `connect` makes exactly one initialization attempt;
on failure it returns false, records the error, and leaves the connected
flag and the attempt counter unchanged (starting disconnected it stays
disconnected); the retry-with-delay behaviour lives in `reconnect`, which
attempts a new connection whenever the counter is below the configured
retries. -/
theorem claim_C4_amended (c : ℕ) (st : ConnM) (h : st.status.connected = false) :
    ((connect (AttemptOutcome.failInit c) st).1 = false ∧
     (connect (AttemptOutcome.failInit c) st).2.status.connected = false ∧
     (connect (AttemptOutcome.failInit c) st).2.status.last_error = some c ∧
     (connect (AttemptOutcome.failInit c) st).2.connection_attempts = st.connection_attempts) ∧
    ((connect (AttemptOutcome.failAccount c) st).1 = false ∧
     (connect (AttemptOutcome.failAccount c) st).2.status.connected = false ∧
     (connect (AttemptOutcome.failAccount c) st).2.status.last_error = some c ∧
     (connect (AttemptOutcome.failAccount c) st).2.connection_attempts = st.connection_attempts) ∧
    (∀ o : AttemptOutcome, st.connection_attempts < st.max_connection_attempts →
      (reconnect o st).2.2 = true) := by
  refine ⟨⟨rfl, h, rfl, rfl⟩, ⟨rfl, h, rfl, rfl⟩, ?_⟩
  intro o h'
  simp [reconnect, not_le.mpr h']

/-- Claim C4 amended witness: a failed attempt from the fresh state records
the error, and a below-cap reconnect attempts a connection. -/
theorem claim_C4_amended_witness :
    (connect (AttemptOutcome.failInit 7) st0).1 = false ∧
    (connect (AttemptOutcome.failInit 7) st0).2.status.last_error = some 7 ∧
    (reconnect AttemptOutcome.success st0).2.2 = true := by
  have h := claim_C4_amended 7 st0 rfl
  exact ⟨h.1.1, h.1.2.2.1, h.2.2 AttemptOutcome.success (by decide)⟩

/-- Claim C10 counterexample: a reconnect call at the attempt cap leaves
the counter unchanged (neither incremented nor reset), so the counter is
not incremented on every reconnect call. -/
theorem claim_C10_counterexample :
    stCap.connection_attempts = stCap.max_connection_attempts ∧
    (reconnect AttemptOutcome.success stCap).2.1.connection_attempts ≠
      stCap.connection_attempts + 1 ∧
    (reconnect AttemptOutcome.success stCap).2.1.connection_attempts ≠ 0 := by
  refine ⟨rfl, by decide, by decide⟩

/-- Claim C10 amended: below the cap every reconnect attempts a connection
and either resets the counter to zero (successful connect) or increments
it; at the cap reconnect (and ensure whose liveness check fails) returns
false immediately without attempting a connection and without touching the
counter; and across all connection-manager operations the counter is reset
to zero only by a successful connect. -/
theorem claim_C10_amended (o : AttemptOutcome) (st : ConnM) :
    (st.connection_attempts < st.max_connection_attempts →
      (reconnect o st).2.2 = true ∧
      (reconnect o st).2.1.connection_attempts =
        (match o with
         | AttemptOutcome.success => 0
         | _ => st.connection_attempts + 1)) ∧
    (st.max_connection_attempts ≤ st.connection_attempts →
      reconnect o st = (false, st, false)) ∧
    (∀ t a : Bool, st.max_connection_attempts ≤ st.connection_attempts →
      (check_connection t a st).1 = false →
      (ensure_connection t a o st).1 = false ∧
      (ensure_connection t a o st).2.2 = false) ∧
    (∀ op : ConnOp, (applyOp op st).connection_attempts = 0 →
      st.connection_attempts = 0 ∨ opConnectSuccess op st = true) := by
  refine ⟨?_, ?_, ?_, ?_⟩
  · intro h
    cases o <;> simp [reconnect, connect, disconnect, not_le.mpr h]
  · intro h
    simp [reconnect, h]
  · intro t a h hc
    have hp := check_connection_counters t a st
    constructor <;>
    · simp only [ensure_connection, hc, if_false, Bool.false_eq_true]
      simp [reconnect, hp.1, hp.2, h]
  · intro op hz
    cases op with
    | connectOp o2 =>
      cases o2 with
      | success => right; simp [opConnectSuccess]
      | failInit c => left; simpa [applyOp, connect] using hz
      | failAccount c => left; simpa [applyOp, connect] using hz
    | disconnectOp => left; simpa [applyOp, disconnect] using hz
    | reconnectOp o2 =>
      by_cases hcap : st.max_connection_attempts ≤ st.connection_attempts
      · left; simpa [applyOp, reconnect, hcap] using hz
      · cases o2 with
        | success =>
          right; simp [opConnectSuccess, not_le.mp hcap]
        | failInit c =>
          exfalso
          simp [applyOp, reconnect, hcap, connect, disconnect] at hz
        | failAccount c =>
          exfalso
          simp [applyOp, reconnect, hcap, connect, disconnect] at hz
    | checkOp t a =>
      left
      have hp := check_connection_counters t a st
      rw [applyOp] at hz
      rw [← hp.1]; exact hz
    | ensureOp t a o2 =>
      by_cases hc : (check_connection t a st).1 = true
      · left
        have hp := check_connection_counters t a st
        simp only [applyOp, ensure_connection, hc, if_true] at hz
        rw [← hp.1]; exact hz
      · have hc' : (check_connection t a st).1 = false := by
          revert hc; cases (check_connection t a st).1 <;> simp
        have hp := check_connection_counters t a st
        by_cases hcap : st.max_connection_attempts ≤ st.connection_attempts
        · left
          simp only [applyOp, ensure_connection, hc', Bool.false_eq_true, if_false] at hz
          simp [reconnect, hp.1, hp.2, hcap] at hz
          exact hz
        · cases o2 with
          | success =>
            right
            simp [opConnectSuccess, hc', not_le.mp hcap]
          | failInit c =>
            exfalso
            simp only [applyOp, ensure_connection, hc', Bool.false_eq_true, if_false] at hz
            simp [reconnect, hp.1, hp.2, hcap, connect, disconnect] at hz
          | failAccount c =>
            exfalso
            simp only [applyOp, ensure_connection, hc', Bool.false_eq_true, if_false] at hz
            simp [reconnect, hp.1, hp.2, hcap, connect, disconnect] at hz

/-- Claim C10 amended witness: a below-cap failed reconnect increments the
counter to one; at the cap a reconnect is the identity returning false with
no attempt, and an ensure whose check fails also returns false. -/
theorem claim_C10_amended_witness :
    (reconnect (AttemptOutcome.failInit 1) st0).2.1.connection_attempts = 1 ∧
    reconnect AttemptOutcome.success stCap = (false, stCap, false) ∧
    (ensure_connection true true AttemptOutcome.success stCap).1 = false :=
  ⟨((claim_C10_amended (AttemptOutcome.failInit 1) st0).1 (by decide)).2,
   (claim_C10_amended AttemptOutcome.success stCap).2.1 (by decide),
   ((claim_C10_amended AttemptOutcome.success stCap).2.2.1 true true (by decide) rfl).1⟩

end TradeBot
